import Mathlib

/-!
Verification development for the `yugabyte_pycommon` library.

The definitions below are a shallow embedding of the Python sources:
`yugabyte_pycommon/text_manipulation.py` and
`yugabyte_pycommon/external_calls.py`.  Strings are Lean `String`s,
Python `None` becomes `Option`, raised exceptions become `Except`
errors, and the side effects of `run_program` (logging, process
spawning) are made explicit in its return value.
-/

namespace YbPyCommon

/-- The single-quote character, written by code so that no apostrophe
appears in a character literal. -/
def squote : Char := Char.ofNat 39

/-- The backslash character. -/
def bslash : Char := '\\'

/-- The backtick character. -/
def btick : Char := Char.ofNat 96

/-- The left-brace character. -/
def lbrace : Char := Char.ofNat 123

/-- The right-brace character. -/
def rbrace : Char := Char.ofNat 125

/-- Characters that Python `str.strip` / `str.rstrip` remove: the
characters for which Python `str.isspace` holds (ASCII whitespace,
plus the next-line and Unicode space characters). -/
def pyIsSpace (c : Char) : Bool :=
  c = ' ' || c = '\t' || c = '\n' || c = '\r' || c = '\x0b' || c = '\x0c' ||
  c = '\x1c' || c = '\x1d' || c = '\x1e' || c = '\x1f' || c = '\x85' ||
  c = '\xa0' || c = Char.ofNat 0x1680 ||
  (0x2000 <= c.toNat && c.toNat <= 0x200a) ||
  c = Char.ofNat 0x2028 || c = Char.ofNat 0x2029 ||
  c = Char.ofNat 0x202f || c = Char.ofNat 0x205f || c = Char.ofNat 0x3000

/-- Python `str.rstrip()` on a character list. -/
def pyRstripList (l : List Char) : List Char :=
  (l.reverse.dropWhile pyIsSpace).reverse

/-- Python `str.rstrip()`. -/
def pyRstrip (s : String) : String :=
  String.mk (pyRstripList s.data)

/-- Python `str.strip()`. -/
def pyStrip (s : String) : String :=
  String.mk (pyRstripList (s.data.dropWhile pyIsSpace))

/-- Characters at which Python `str.splitlines` breaks a line. -/
def pyIsLineBreak (c : Char) : Bool :=
  c = '\n' || c = '\r' || c = '\x0b' || c = '\x0c' ||
  c = '\x1c' || c = '\x1d' || c = '\x1e' || c = '\x85' ||
  c = Char.ofNat 0x2028 || c = Char.ofNat 0x2029

/-- Python `str.splitlines()` on a character list: line terminators are
dropped, `\r\n` counts as a single terminator, a trailing terminator
does not produce a trailing empty line, and the empty string yields no
lines. -/
def pySplitlines : List Char → List (List Char)
  | [] => []
  | '\r' :: '\n' :: rest => [] :: pySplitlines rest
  | c :: rest =>
    if pyIsLineBreak c then
      [] :: pySplitlines rest
    else
      match pySplitlines rest with
      | [] => [[c]]
      | line :: more => (c :: line) :: more

/-- Python `lines[-k:]` for a nonnegative `k`: the last `k` elements,
the whole list when `k = 0` (Python slice `[0:]`). -/
def pyLastSlice (l : List (List Char)) (k : Nat) : List (List Char) :=
  if k = 0 then l else l.drop (l.length - k)

/-- Embedding of `text_manipulation.trim_long_text`.  The clamp
`max(max_lines, 3)` makes the effective bound a positive integer, so it
is carried as a `Nat`; the Python `int((max_lines - 1) / 2)` on the
clamped value is floor division. -/
def trim_long_text (text : String) (max_lines : Int) : String :=
  let m : Nat := (max max_lines 3).toNat
  let lines := pySplitlines text.data
  if lines.length ≤ m then text
  else
    let lines_to_keep_at_each_end : Nat := (m - 1) / 2
    let num_lines_skipped : Nat := lines.length - lines_to_keep_at_each_end * 2
    if num_lines_skipped = 0 then text
    else
      String.intercalate "\n"
        (((lines.take lines_to_keep_at_each_end).map String.mk) ++
         ["(" ++ toString num_lines_skipped ++ " lines skipped)"] ++
         ((pyLastSlice lines lines_to_keep_at_each_end).map String.mk))

/-- The character class of the regex `['"${}()\\]` in
`text_manipulation.quote_for_bash`. -/
def isSpecialChar (c : Char) : Bool :=
  c = squote || c = '"' || c = '$' || c = lbrace || c = rbrace ||
  c = '(' || c = ')' || c = bslash

/-- Python `s.replace("'", "'\\''")` applied to one character. -/
def qchar (c : Char) : List Char :=
  if c = squote then [squote, bslash, squote, squote] else [c]

/-- Embedding of `text_manipulation.quote_for_bash`. -/
def quote_for_bash (s : String) : String :=
  if s = "" then String.mk [squote, squote]
  else if s.data.any isSpecialChar then
    String.mk (squote :: (s.data.flatMap qchar ++ [squote]))
  else s

/-- Embedding of `text_manipulation.cmd_line_args_to_str`. -/
def cmd_line_args_to_str (args : List String) : String :=
  String.intercalate " " (args.map quote_for_bash)

/-- Modes of the shell word scanner: outside quotes, inside single
quotes, inside double quotes. -/
inductive ShMode where
  | norm : ShMode
  | single : ShMode
  | double : ShMode
deriving DecidableEq

/-- Unquoted characters whose shell interpretation (expansion, globbing,
operators, comments, line breaks) is outside this model; the scanner
refuses inputs containing them rather than guessing. -/
def isNormBail (c : Char) : Bool :=
  c = '$' || c = btick || c = '*' || c = '?' || c = '~' || c = '|' ||
  c = ';' || c = '&' || c = '<' || c = '>' || c = '\n' || c = '#' ||
  c = '!' || c = '[' || c = ']' || c = '(' || c = ')' ||
  c = lbrace || c = rbrace

/-- Modelled from the spec: POSIX-shell field splitting and quote
removal, as `bash` applies them to the arguments of `echo -n` (the
shell itself is not part of this repository).  The scanner consumes the
input in mode `mode`, with `started` recording whether the current
field has begun and `acc` its characters so far; it returns `none` on
constructs the model does not cover (unterminated quotes, expansions,
operators). -/
def shScan : List Char → ShMode → Bool → List Char → Option (List (List Char))
  | [], .norm, started, acc => if started then some [acc] else some []
  | [], .single, _, _ => none
  | [], .double, _, _ => none
  | c :: rest, .single, _, acc =>
    if c = squote then shScan rest .norm true acc
    else shScan rest .single true (acc ++ [c])
  | c :: rest, .double, _, acc =>
    if c = '"' then shScan rest .norm true acc
    else if c = bslash then
      match rest with
      | [] => none
      | d :: rest2 =>
        if d = '$' || d = btick || d = '"' || d = bslash then
          shScan rest2 .double true (acc ++ [d])
        else if d = '\n' then shScan rest2 .double true acc
        else shScan rest2 .double true (acc ++ [c, d])
    else if c = '$' || c = btick then none
    else shScan rest .double true (acc ++ [c])
  | c :: rest, .norm, started, acc =>
    if c = ' ' || c = '\t' then
      if started then (shScan rest .norm false []).map (fun fs => acc :: fs)
      else shScan rest .norm false []
    else if c = squote then shScan rest .single true acc
    else if c = '"' then shScan rest .double true acc
    else if c = bslash then
      match rest with
      | [] => none
      | d :: rest2 =>
        if d = '\n' then shScan rest2 .norm started acc
        else shScan rest2 .norm true (acc ++ [d])
    else if isNormBail c then none
    else shScan rest .norm true (acc ++ [c])

/-- Modelled from the spec: the bytes `echo -n` writes when handed the
single token `t` on a shell command line — the fields `t` expands to,
joined by single spaces; `none` when the expansion falls outside the
scanner's fragment. -/
def shellEchoN (t : String) : Option String :=
  (shScan t.data .norm false []).map
    (fun fs => String.intercalate " " (fs.map String.mk))

/-- A character the scanner passes through verbatim in `norm` mode:
not whitespace, not a quote or backslash, not a bailed metacharacter. -/
def isPlain (c : Char) : Bool :=
  !(c = ' ' || c = '\t' || c = squote || c = '"' || c = bslash || isNormBail c)

/-- Default of `external_calls.DEFAULT_MAX_LINES_TO_SHOW`. -/
def DEFAULT_MAX_LINES_TO_SHOW : Int := 1000

/-- Default of `external_calls.DEFAULT_UNIX_SHELL`. -/
def DEFAULT_UNIX_SHELL : String := "bash"

/-- Embedding of `external_calls.ProgramResult`: the fields stored by
its constructor.  `stdout`/`stderr` are `none` when the corresponding
stream was not captured in memory, mirroring Python `None`. -/
structure ProgramResult where
  cmd_line : List String
  cmd_line_str : String
  returncode : Int
  stdout : Option String
  stderr : Option String
  stdout_path : Option String
  stderr_path : Option String
  program_path : Option String
  invocation_details_str : String
  max_lines_to_show : Int
  output_captured : Bool
deriving Repr, DecidableEq

/-- Embedding of `ProgramResult.success`. -/
def ProgramResult.success (r : ProgramResult) : Bool :=
  r.returncode = 0

/-- Embedding of `ProgramResult.failure`. -/
def ProgramResult.failure (r : ProgramResult) : Bool :=
  r.returncode ≠ 0

/-- Embedding of `ProgramResult.get_stdout`.  `readFile` stands for the
`read_file` call used when stdout went to a file; Python returns `None`
when neither the buffer nor a path is present. -/
def ProgramResult.get_stdout (r : ProgramResult) (readFile : String → String) :
    Option String :=
  match r.stdout with
  | some s => some s
  | none => r.stdout_path.map readFile

/-- Embedding of `ProgramResult.get_stderr`. -/
def ProgramResult.get_stderr (r : ProgramResult) (readFile : String → String) :
    Option String :=
  match r.stderr with
  | some s => some s
  | none => r.stderr_path.map readFile

/-- Embedding of `ProgramResult._wrap_for_error_msg`: the empty string
when the stream value is missing or blank, otherwise the stream wrapped
between a `Standard output from ...:` header and an
`(end of standard output)` trailer (likewise for `error`), with the
stream right-stripped and passed through `trim_long_text`. -/
def ProgramResult.wrap_for_error_msg (r : ProgramResult)
    (readFile : String → String) (stream_type : String) : String :=
  let value := if stream_type = "output" then r.get_stdout readFile
               else r.get_stderr readFile
  match value with
  | none => ""
  | some v =>
    if pyStrip v = "" then ""
    else
      "\nStandard " ++ stream_type ++ " from " ++ r.invocation_details_str ++
      ":\n" ++ trim_long_text (pyRstrip v) r.max_lines_to_show ++
      "\n(end of standard " ++ stream_type ++ ")\n"

/-- Embedding of `ProgramResult.get_user_friendly_stdout_msg`. -/
def ProgramResult.get_user_friendly_stdout_msg (r : ProgramResult)
    (readFile : String → String) : String :=
  r.wrap_for_error_msg readFile "output"

/-- Embedding of `ProgramResult.get_user_friendly_stderr_msg`. -/
def ProgramResult.get_user_friendly_stderr_msg (r : ProgramResult)
    (readFile : String → String) : String :=
  r.wrap_for_error_msg readFile "error"

/-- Embedding of `ProgramResult._set_error_msg`, as the derived value of
the `error_msg` attribute: `none` on exit code 0, otherwise the header
`Non-zero exit code <code> from <descriptor>.` followed by the stdout
and stderr blocks, right-stripped.  (The stray extra arguments of the
Python `format` call are discarded by `format` itself.) -/
def ProgramResult.error_msg (r : ProgramResult) (readFile : String → String) :
    Option String :=
  if r.returncode = 0 then none
  else some (pyRstrip
    ("Non-zero exit code " ++ toString r.returncode ++ " from " ++
     r.invocation_details_str ++ "." ++
     r.get_user_friendly_stdout_msg readFile ++
     r.get_user_friendly_stderr_msg readFile))

/-- The exceptions the component can raise, as explicit error values:
`ValueError` for invalid option combinations, `OSError` for launch
failures, `ExternalProgramError(message, result)` for failed commands,
and `AttributeError` for a method call on Python `None`. -/
inductive RunError where
  | valueError : String → RunError
  | osError : RunError
  | externalProgramError : Option String → ProgramResult → RunError
  | attributeError : RunError
deriving Repr, DecidableEq

/-- Embedding of `ProgramResult.raise_error_if_failed`: raises
`ExternalProgramError(self.error_msg, self)` exactly on failure. -/
def ProgramResult.raise_error_if_failed (r : ProgramResult)
    (readFile : String → String) : Except RunError Unit :=
  if r.failure then .error (.externalProgramError (r.error_msg readFile) r)
  else .ok ()

/-- Severities of the `logging` calls the component makes. -/
inductive LogLevel where
  | info : LogLevel
  | warning : LogLevel
  | error : LogLevel
deriving Repr, DecidableEq

/-- One diagnostic-log line: a severity and the composed message. -/
structure LogEvent where
  level : LogLevel
  msg : String
deriving Repr, DecidableEq

/-- The ambient state `run_program` consults: the process current
directory, the verbose-mode flag, the `SHELL` variable, the temp-file
name the shell script would get, and the path/file-system primitives. -/
structure Env where
  getcwd : String
  verbose : Bool
  shell_env : Option String
  tmp_script_path : String
  abspath : String → String
  realpath : String → String
  readFile : String → String

/-- The behavior of the child process of one invocation: whether the
executable launches at all, and on launch its exit code and the bytes
it writes to the piped streams (already decoded as UTF-8 text). -/
structure Child where
  launches : Bool
  returncode : Int
  stdout : String
  stderr : String

/-- One element of a Python argument list: a string or an integer. -/
inductive PyArg where
  | str : String → PyArg
  | int : Int → PyArg
deriving Repr, DecidableEq

/-- The `args` parameter of `run_program`: a single command-line string
or a list (or tuple) of tokens. -/
inductive RunArgs where
  | single : String → RunArgs
  | list : List PyArg → RunArgs
deriving Repr, DecidableEq

/-- Embedding of the inner `normalize_arg` of `run_program`. -/
def normalize_arg : PyArg → String
  | .str s => s
  | .int n => toString n

/-- Truthiness of the tri-state `shell` parameter (`None` is falsy). -/
def shellTruthy : Option Bool → Bool
  | some b => b
  | none => false

/-- The first step of `run_program`: a single string command with no
explicit `shell` preference turns shell execution on. -/
def effectiveShell (args : RunArgs) (shell : Option Bool) : Option Bool :=
  match args, shell with
  | .single _, none => some true
  | _, _ => shell

/-- The result of one `run_program` call with its effects made
explicit: the returned value or raised error, the log lines written,
and whether a child process was spawned. -/
structure RunOutput where
  result : Except RunError ProgramResult
  logs : List LogEvent
  spawned : Bool
deriving Repr

/-- Embedding of `external_calls.run_program`.  `env` supplies the
ambient state and `ch` the child process behavior; the remaining
parameters are the Python keyword parameters in source order, with
`stdout_stderr_pfx` standing for the prefix parameter that sets both
redirect paths.  Python defaults: `error_ok = false`,
`report_errors = none`, `capture_output = true`,
`max_lines_to_show = DEFAULT_MAX_LINES_TO_SHOW`, and `none` for the
rest. -/
def run_program (env : Env) (ch : Child) (args : RunArgs) (error_ok : Bool)
    (report_errors : Option Bool) (capture_output : Bool)
    (max_lines_to_show : Int) (cwd : Option String) (shell : Option Bool)
    (stdout_path : Option String) (stderr_path : Option String)
    (stdout_stderr_pfx : Option String) : RunOutput :=
  let shell1 : Option Bool := effectiveShell args shell
  let argsList : List String :=
    match args with
    | .single s => [s]
    | .list l => l.map normalize_arg
  let cmd_line_str0 : String :=
    match args with
    | .single s => s
    | .list l => cmd_line_args_to_str (l.map normalize_arg)
  if stdout_path.isNone ≠ stderr_path.isNone then
    { result := .error (.valueError
        ("stdout_file_path and stderr_file_path have to specified or " ++
         "unspecified at the same time. Got: stdout_file_path=\x7b\x7d, " ++
         "stderr_file_path=\x7b\x7d")),
      logs := [], spawned := false }
  else if stdout_stderr_pfx.isSome && stdout_path.isSome then
    { result := .error (.valueError
        ("stdout_stderr_prefix cannot be specified at the same time with " ++
         "stdout_path or stderr_path")),
      logs := [], spawned := false }
  else
    let stdout_path1 : Option String :=
      match stdout_stderr_pfx with
      | some p => some (p ++ ".out")
      | none => stdout_path
    let stderr_path1 : Option String :=
      match stdout_stderr_pfx with
      | some p => some (p ++ ".err")
      | none => stderr_path
    let output_to_files : Bool := stdout_path1.isSome
    if output_to_files && !shellTruthy shell1 then
      { result := .error (.valueError
          "If \x7bstdout,stderr\x7d_to_file are specified, shell must be True"),
        logs := [], spawned := false }
    else
      let run_dir : String :=
        match cwd with
        | some c => if c = "" then env.getcwd else c
        | none => env.getcwd
      let invocation_details_str0 : String :=
        "external program \x7b\x7b " ++ cmd_line_str0 ++
        " \x7d\x7d running in \x27" ++ run_dir ++ "\x27"
      let cmd_line_str : String :=
        if output_to_files then
          "( " ++ cmd_line_str0 ++ " ) >" ++
          quote_for_bash (stdout_path1.getD "") ++ " 2>" ++
          quote_for_bash (stderr_path1.getD "")
        else cmd_line_str0
      let invocation_details_str : String :=
        if output_to_files then
          invocation_details_str0 ++ ", saving stdout to \x7b\x7b " ++
          env.abspath (stdout_path1.getD "") ++
          " \x7d\x7d, stderr to \x7b\x7b " ++
          env.abspath (stderr_path1.getD "") ++ " \x7d\x7d"
        else invocation_details_str0
      let logs0 : List LogEvent :=
        if env.verbose then
          [{ level := .info, msg := "Running " ++ invocation_details_str }]
        else []
      let _args_to_run : String :=
        if shellTruthy shell1 then
          (env.shell_env.getD DEFAULT_UNIX_SHELL) ++ " " ++
          quote_for_bash env.tmp_script_path
        else cmd_line_str
      if !ch.launches then
        { result := .error .osError,
          logs := logs0 ++
            [{ level := .error, msg := "Failed to run " ++ invocation_details_str }],
          spawned := true }
      else
        let redirected : Bool := capture_output && !output_to_files
        let program_stdout : Option String :=
          if redirected then some ch.stdout else none
        let program_stderr : Option String :=
          if redirected then some ch.stderr else none
        let result : ProgramResult :=
          { cmd_line := argsList,
            cmd_line_str := cmd_line_str,
            returncode := ch.returncode,
            stdout := program_stdout,
            stderr := program_stderr,
            stdout_path := stdout_path1,
            stderr_path := stderr_path1,
            program_path := argsList.head?.map env.realpath,
            invocation_details_str := invocation_details_str,
            max_lines_to_show := max_lines_to_show,
            output_captured := capture_output }
        if ch.returncode ≠ 0 then
          let report_errors1 : Bool :=
            match report_errors with
            | none => !error_ok
            | some b => b
          let logs1 : List LogEvent :=
            logs0 ++
              (if report_errors1 then
                [{ level := .error, msg := (result.error_msg env.readFile).getD "" }]
               else [])
          if !error_ok then
            match result.raise_error_if_failed env.readFile with
            | .error e => { result := .error e, logs := logs1, spawned := true }
            | .ok _ => { result := .ok result, logs := logs1, spawned := true }
          else
            { result := .ok result, logs := logs1, spawned := true }
        else
          { result := .ok result, logs := logs0, spawned := true }

/-- Embedding of `external_calls.check_run_program`: forces
`capture_output := false` and `report_errors := some true`, runs, and
returns 0. -/
def check_run_program (env : Env) (ch : Child) (args : RunArgs)
    (error_ok : Bool) (max_lines_to_show : Int) (cwd : Option String)
    (shell : Option Bool) (stdout_path : Option String)
    (stderr_path : Option String) (stdout_stderr_pfx : Option String) :
    RunOutput × Except RunError Int :=
  let out := run_program env ch args error_ok (some true) false
    max_lines_to_show cwd shell stdout_path stderr_path stdout_stderr_pfx
  match out.result with
  | .error e => (out, .error e)
  | .ok _ => (out, .ok 0)

/-- Embedding of `external_calls.program_fails_no_log`. -/
def program_fails_no_log (env : Env) (ch : Child) (args : RunArgs)
    (capture_output : Bool) (max_lines_to_show : Int) (cwd : Option String)
    (shell : Option Bool) : RunOutput × Except RunError Bool :=
  let out := run_program env ch args true (some false) capture_output
    max_lines_to_show cwd shell none none none
  match out.result with
  | .error e => (out, .error e)
  | .ok r => (out, .ok r.failure)

/-- Embedding of `external_calls.program_succeeds_no_log`. -/
def program_succeeds_no_log (env : Env) (ch : Child) (args : RunArgs)
    (capture_output : Bool) (max_lines_to_show : Int) (cwd : Option String)
    (shell : Option Bool) : RunOutput × Except RunError Bool :=
  let out := run_program env ch args true (some false) capture_output
    max_lines_to_show cwd shell none none none
  match out.result with
  | .error e => (out, .error e)
  | .ok r => (out, .ok r.success)

/-- Embedding of `external_calls.program_succeeds_empty_output`: runs
with `error_ok := true`, `report_errors := some false`, then returns
`false` on failure; on success it evaluates `result.stdout.strip()`,
which is an `AttributeError` when `stdout` is Python `None`, raises
`ExternalProgramError` (after logging the message at error severity)
when the stripped output is non-empty, and returns `true` otherwise.
The keyword arguments it forwards are passed through unchanged. -/
def program_succeeds_empty_output (env : Env) (ch : Child) (args : RunArgs)
    (capture_output : Bool) (max_lines_to_show : Int) (cwd : Option String)
    (shell : Option Bool) (stdout_path : Option String)
    (stderr_path : Option String) (stdout_stderr_pfx : Option String) :
    (Except RunError Bool) × List LogEvent × Bool :=
  let out := run_program env ch args true (some false) capture_output
    max_lines_to_show cwd shell stdout_path stderr_path stdout_stderr_pfx
  match out.result with
  | .error e => (.error e, out.logs, out.spawned)
  | .ok result =>
    if result.failure then (.ok false, out.logs, out.spawned)
    else
      match result.stdout with
      | none => (.error .attributeError, out.logs, out.spawned)
      | some s =>
        if pyStrip s ≠ "" then
          let error_msg := "Unexpected output in case of success. " ++
            result.get_user_friendly_stdout_msg env.readFile
          (.error (.externalProgramError (some error_msg) result),
           out.logs ++ [{ level := .error, msg := error_msg }],
           out.spawned)
        else (.ok true, out.logs, out.spawned)

/-- Embedding of `external_calls.WorkDirContext`: the construction-time
state of one context object — the target directory and the
thread-local slot that `enter` fills with the saved directory. -/
structure WorkDirContext where
  work_dir : String
  old_dir : Option String
deriving Repr, DecidableEq

/-- The Python constructor `WorkDirContext(work_dir)`: the thread-local
slot starts unset. -/
def WorkDirContext.init (d : String) : WorkDirContext :=
  { work_dir := d, old_dir := none }

/-- Embedding of `WorkDirContext.__enter__` acting on the process
current directory `cwd`: save `os.getcwd()` into the thread-local slot
and `os.chdir` to the target; returns the updated context object and
the new current directory. -/
def WorkDirContext.enter (c : WorkDirContext) (cwd : String) :
    WorkDirContext × String :=
  ({ work_dir := c.work_dir, old_dir := some cwd }, c.work_dir)

/-- Embedding of `WorkDirContext.__exit__` acting on the process
current directory: `os.chdir` back to the saved directory.  Reading an
unset thread-local slot would be an `AttributeError` in Python, so the
result is an `Except`. -/
def WorkDirContext.exitScope (c : WorkDirContext) :
    Except RunError String :=
  match c.old_dir with
  | some d => .ok d
  | none => .error .attributeError

/-- The semantics of `with WorkDirContext(d): body` on the process
current directory.  A fresh context object is created and entered; the
body observes the new directory and yields its outcome together with
whatever the current directory is when it finishes or raises; `__exit__`
runs on both paths.  Returns the body outcome and the final current
directory. -/
def withWorkDir {ε : Type} (d : String)
    (body : String → Except ε Unit × String) (cwd : String) :
    Except ε Unit × String :=
  let c0 := WorkDirContext.init d
  let entered := c0.enter cwd
  let bodyOut := body entered.2
  match entered.1.exitScope with
  | .ok restored => (bodyOut.1, restored)
  | .error _ => (bodyOut.1, bodyOut.2)

/-- A sample ambient state for concrete instantiations: a fixed current
directory, verbose mode off, no `SHELL` variable, and identity path
resolution over an empty file system. -/
def envSample : Env :=
  ⟨"/home/user", false, none, "/tmp/tmp1.sh", id, id, fun _ => ""⟩

/-- A sample child process that launches and fails with exit code 1,
printing one line to stdout. -/
def chFailSample : Child :=
  ⟨true, 1, "out line", ""⟩

/-- A sample child process that launches and succeeds silently. -/
def chOkSample : Child :=
  ⟨true, 0, "", ""⟩

/-- A sample child process that launches and succeeds but prints. -/
def chNoisySample : Child :=
  ⟨true, 0, "foo", ""⟩

/-- C9: exiting a `WorkDirContext` scope — whether the body completed
normally or raised — restores the process working directory to exactly
the directory current immediately before entry (so LIFO-nested scopes,
whose bodies are themselves such scopes, always restore the previous
directory); the body runs in the context's target directory and its
outcome is propagated. -/
theorem work_dir_context_restores {ε : Type} (d cwd : String)
    (body : String → Except ε Unit × String) :
    (withWorkDir d body cwd).2 = cwd ∧
    (withWorkDir d body cwd).1 = (body d).1 :=
  ⟨rfl, rfl⟩

/-- C4: `trim_long_text` returns the text unchanged when it has at most
`max(max_lines, 3)` lines, and otherwise the first
`(max(max_lines,3) - 1) / 2` lines, one `(<K> lines skipped)` marker
line where `K` counts the omitted lines, and the last
`(max(max_lines,3) - 1) / 2` lines, joined by newlines. -/
theorem trim_long_text_spec (text : String) (max_lines : Int) :
    (((pySplitlines text.data).length : Int) ≤ max max_lines 3 →
      trim_long_text text max_lines = text) ∧
    (max max_lines 3 < ((pySplitlines text.data).length : Int) →
      trim_long_text text max_lines = String.intercalate "\n"
        ((((pySplitlines text.data).take
            (((max max_lines 3).toNat - 1) / 2)).map String.mk) ++
         ["(" ++ toString ((pySplitlines text.data).length -
            ((max max_lines 3).toNat - 1) / 2 * 2) ++ " lines skipped)"] ++
         (((pySplitlines text.data).drop ((pySplitlines text.data).length -
            ((max max_lines 3).toNat - 1) / 2)).map String.mk))) := by
  have hm3 : (3 : Int) ≤ max max_lines 3 := le_max_right _ _
  have hmN : (((max max_lines 3).toNat : Int)) = max max_lines 3 :=
    Int.toNat_of_nonneg (by omega)
  constructor
  · intro h
    have hL : (pySplitlines text.data).length ≤ (max max_lines 3).toNat := by
      omega
    simp only [trim_long_text]
    rw [if_pos hL]
  · intro h
    have hL : (max max_lines 3).toNat < (pySplitlines text.data).length := by
      omega
    have hm3N : 3 ≤ (max max_lines 3).toNat := by omega
    have hskip : (pySplitlines text.data).length -
        ((max max_lines 3).toNat - 1) / 2 * 2 ≠ 0 := by omega
    simp only [trim_long_text]
    rw [if_neg (by omega), if_neg hskip]
    unfold pyLastSlice
    rw [if_neg (by omega)]

/-- C4 witness: the spec's 10-numbered-lines examples, obtained from
`trim_long_text_spec` at concrete inputs. -/
theorem trim_long_text_spec_witness :
    trim_long_text "1\n2\n3\n4\n5\n6\n7\n8\n9\n10" 9 =
      "1\n2\n3\n4\n(2 lines skipped)\n7\n8\n9\n10" ∧
    trim_long_text "1\n2\n3\n4\n5\n6\n7\n8\n9\n10" 5 =
      "1\n2\n(6 lines skipped)\n9\n10" ∧
    trim_long_text "1\n2\n3\n4\n5\n6\n7\n8\n9\n10" 1 =
      "1\n(8 lines skipped)\n10" ∧
    trim_long_text "1\n2\n3\n4\n5\n6\n7\n8\n9\n10" 1 =
      trim_long_text "1\n2\n3\n4\n5\n6\n7\n8\n9\n10" 3 ∧
    trim_long_text "1\n2\n3\n4\n5\n6\n7\n8\n9\n10" 20 =
      "1\n2\n3\n4\n5\n6\n7\n8\n9\n10" := by
  refine ⟨?_, ?_, ?_, ?_, ?_⟩
  · rw [(trim_long_text_spec "1\n2\n3\n4\n5\n6\n7\n8\n9\n10" 9).2 (by decide)]
    decide
  · rw [(trim_long_text_spec "1\n2\n3\n4\n5\n6\n7\n8\n9\n10" 5).2 (by decide)]
    decide
  · rw [(trim_long_text_spec "1\n2\n3\n4\n5\n6\n7\n8\n9\n10" 1).2 (by decide)]
    decide
  · rw [(trim_long_text_spec "1\n2\n3\n4\n5\n6\n7\n8\n9\n10" 1).2 (by decide),
        (trim_long_text_spec "1\n2\n3\n4\n5\n6\n7\n8\n9\n10" 3).2 (by decide)]
    decide
  · exact (trim_long_text_spec "1\n2\n3\n4\n5\n6\n7\n8\n9\n10" 20).1 (by decide)

/-- C7: `quote_for_bash` returns two single quotes on the empty string;
wraps `s` in single quotes with every single quote replaced by the
close-escape-reopen sequence when `s` contains a quote, double quote,
dollar, brace, parenthesis, or backslash; and returns `s` unchanged
otherwise. -/
theorem quote_for_bash_spec (s : String) :
    (s = "" → quote_for_bash s = String.mk [squote, squote]) ∧
    ((∃ c ∈ s.data,
        c ∈ [squote, '"', '$', lbrace, rbrace, '(', ')', bslash]) →
      quote_for_bash s = String.mk (squote ::
        (s.data.flatMap (fun c =>
          if c = squote then [squote, bslash, squote, squote] else [c]) ++
         [squote]))) ∧
    (s ≠ "" →
      (∀ c ∈ s.data,
        c ∉ [squote, '"', '$', lbrace, rbrace, '(', ')', bslash]) →
      quote_for_bash s = s) := by
  refine ⟨?_, ?_, ?_⟩
  · intro h
    simp [quote_for_bash, h]
  · rintro ⟨c, hc, hmem⟩
    have hne : s ≠ "" := by
      intro h
      subst h
      simp at hc
    have hany : s.data.any isSpecialChar = true := by
      rw [List.any_eq_true]
      refine ⟨c, hc, ?_⟩
      have h2 : c = squote ∨ c = '"' ∨ c = '$' ∨ c = lbrace ∨ c = rbrace ∨
          c = '(' ∨ c = ')' ∨ c = bslash := by simpa using hmem
      rcases h2 with h | h | h | h | h | h | h | h <;>
        simp [isSpecialChar, h]
    have : quote_for_bash s =
        String.mk (squote :: (s.data.flatMap qchar ++ [squote])) := by
      simp [quote_for_bash, hne, hany]
    rw [this]
    rfl
  · intro hne hall
    have hany : s.data.any isSpecialChar = false := by
      rw [List.any_eq_false]
      intro c hc
      have h2 := hall c hc
      intro hspec
      apply h2
      have h3 : ((((((c = squote ∨ c = '"') ∨ c = '$') ∨ c = lbrace) ∨
          c = rbrace) ∨ c = '(') ∨ c = ')') ∨ c = bslash := by
        simpa [isSpecialChar] using hspec
      rcases h3 with ⟨⟨⟨⟨⟨⟨h | h⟩ | h⟩ | h⟩ | h⟩ | h⟩ | h⟩ | h <;> simp [h]
    simp [quote_for_bash, hne, hany]

/-- C7 witness: the three cases of `quote_for_bash_spec` at concrete
strings. -/
theorem quote_for_bash_spec_witness :
    quote_for_bash "" = String.mk [squote, squote] ∧
    quote_for_bash "a$b" = String.mk (squote ::
      ("a$b".data.flatMap (fun c =>
        if c = squote then [squote, bslash, squote, squote] else [c]) ++
       [squote])) ∧
    quote_for_bash "plain" = "plain" := by
  refine ⟨?_, ?_, ?_⟩
  · exact (quote_for_bash_spec "").1 rfl
  · exact (quote_for_bash_spec "a$b").2.1 (by decide)
  · exact (quote_for_bash_spec "plain").2.2 (by decide) (by decide)

theorem shScan_single_step (c : Char) (hc : c ≠ squote) (rest : List Char)
    (st : Bool) (acc : List Char) :
    shScan (c :: rest) .single st acc = shScan rest .single true (acc ++ [c]) := by
  rw [shScan.eq_4, if_neg hc]

theorem shScan_single_close (rest : List Char) (st : Bool) (acc : List Char) :
    shScan (squote :: rest) .single st acc = shScan rest .norm true acc := by
  rw [shScan.eq_4, if_pos rfl]

theorem shScan_norm_open_squote (rest : List Char) (st : Bool)
    (acc : List Char) :
    shScan (squote :: rest) .norm st acc = shScan rest .single true acc := by
  cases rest with
  | nil => rw [shScan.eq_7, if_neg (by decide), if_pos rfl]
  | cons d r => rw [shScan.eq_8, if_neg (by decide), if_pos rfl]

theorem shScan_norm_bslash_escape (d : Char) (hd : d ≠ '\n')
    (rest2 : List Char) (st : Bool) (acc : List Char) :
    shScan (bslash :: d :: rest2) .norm st acc =
      shScan rest2 .norm true (acc ++ [d]) := by
  rw [shScan.eq_8, if_neg (by decide), if_neg (by decide), if_neg (by decide),
      if_pos rfl, if_neg hd]

theorem isPlain_facts (c : Char) (h : isPlain c = true) :
    c ≠ ' ' ∧ c ≠ '\t' ∧ c ≠ squote ∧ c ≠ '"' ∧ c ≠ bslash ∧
    isNormBail c = false := by
  simp only [isPlain, Bool.not_eq_true', Bool.or_eq_false_iff,
    decide_eq_false_iff_not] at h
  exact ⟨by tauto, by tauto, by tauto, by tauto, by tauto, by tauto⟩

theorem isPlain_not_special (c : Char) (h : isPlain c = true) :
    isSpecialChar c = false := by
  obtain ⟨h1, h2, h3, h4, h5, h6⟩ := isPlain_facts c h
  simp only [isNormBail, Bool.or_eq_false_iff, decide_eq_false_iff_not] at h6
  have hd : c ≠ '$' := by tauto
  have hlb : c ≠ lbrace := by tauto
  have hrb : c ≠ rbrace := by tauto
  have hlp : c ≠ '(' := by tauto
  have hrp : c ≠ ')' := by tauto
  simp [isSpecialChar, h3, h4, h5, hd, hlb, hrb, hlp, hrp]

theorem shScan_norm_plain (c : Char) (h : isPlain c = true)
    (rest : List Char) (st : Bool) (acc : List Char) :
    shScan (c :: rest) .norm st acc = shScan rest .norm true (acc ++ [c]) := by
  obtain ⟨h1, h2, h3, h4, h5, h6⟩ := isPlain_facts c h
  cases rest with
  | nil =>
    rw [shScan.eq_7, if_neg (by simp [h1, h2]), if_neg h3, if_neg h4,
        if_neg h5, if_neg (by simp [h6])]
  | cons d r =>
    rw [shScan.eq_8, if_neg (by simp [h1, h2]), if_neg h3, if_neg h4,
        if_neg h5, if_neg (by simp [h6])]

theorem shScan_single_qbody (s : List Char) :
    ∀ (st : Bool) (rest acc : List Char),
      shScan (s.flatMap qchar ++ squote :: rest) .single st acc =
      shScan rest .norm true (acc ++ s) := by
  induction s with
  | nil =>
    intro st rest acc
    simp only [List.flatMap_nil, List.nil_append, List.append_nil]
    exact shScan_single_close rest st acc
  | cons c s ih =>
    intro st rest acc
    rw [List.flatMap_cons]
    by_cases hc : c = squote
    · subst hc
      have hq : qchar squote = [squote, bslash, squote, squote] := by
        simp [qchar]
      rw [hq]
      show shScan (squote :: bslash :: squote :: squote ::
        (s.flatMap qchar ++ squote :: rest)) .single st acc = _
      rw [shScan_single_close, shScan_norm_bslash_escape squote (by decide),
          shScan_norm_open_squote, ih]
      simp
    · have hq : qchar c = [c] := by simp [qchar, hc]
      rw [hq]
      show shScan (c :: (s.flatMap qchar ++ squote :: rest)) .single st acc = _
      rw [shScan_single_step c hc, ih]
      simp

theorem shScan_plain_word (s : List Char) (h : ∀ c ∈ s, isPlain c = true) :
    ∀ acc : List Char, shScan s .norm true acc = some [acc ++ s] := by
  induction s with
  | nil =>
    intro acc
    rw [shScan.eq_1]
    simp
  | cons c s ih =>
    intro acc
    have hc := h c (by simp)
    have hs : ∀ x ∈ s, isPlain x = true := fun x hx => h x (by simp [hx])
    rw [shScan_norm_plain c hc, ih hs]
    simp

theorem shScan_qbody_closed (s : List Char) :
    shScan (squote :: (s.flatMap qchar ++ [squote])) .norm false [] =
      some [s] := by
  have h2 : s.flatMap qchar ++ [squote] = s.flatMap qchar ++ squote :: [] :=
    rfl
  rw [shScan_norm_open_squote, h2, shScan_single_qbody s true [] []]
  rw [shScan.eq_1]
  simp

/-- C8: the claimed shell round-trip is the code's own contract — the
repository test `test_quote_for_bash` asserts it for inputs such as
`" foo"` — but the unquoted fast path breaks it: `" foo"` contains no
quote-triggering character, is returned unchanged, and the shell's
field splitting then drops the leading space, so `echo -n` prints
`"foo"`, not `" foo"`. -/
theorem quote_for_bash_roundtrip_failure :
    quote_for_bash " foo" = " foo" ∧
    shellEchoN (quote_for_bash " foo") = some "foo" ∧
    shellEchoN (quote_for_bash " foo") ≠ some " foo" := by
  refine ⟨?_, ?_, ?_⟩
  · decide
  · decide
  · decide

/-- The shell round-trip `echo -n (quote_for_bash s) = s` does hold for
the empty string, for every string containing at least one of the
quote-triggering characters (single quote, double quote, dollar,
braces, parentheses, backslash) — these are wrapped in single quotes —
and for every nonempty string all of whose characters are free of
whitespace and shell metacharacters; only the permissive unquoted fast
path can break it. -/
theorem quote_for_bash_roundtrip (s : String)
    (h : s = "" ∨ s.data.any isSpecialChar = true ∨
         (s ≠ "" ∧ ∀ c ∈ s.data, isPlain c = true)) :
    shellEchoN (quote_for_bash s) = some s := by
  rcases h with h | h | ⟨hne, hplain⟩
  · subst h
    decide
  · have hne : s ≠ "" := by
      intro he
      subst he
      simp at h
    have hq : quote_for_bash s =
        String.mk (squote :: (s.data.flatMap qchar ++ [squote])) := by
      simp [quote_for_bash, hne, h]
    rw [hq]
    show (shScan (squote :: (s.data.flatMap qchar ++ [squote]))
        .norm false []).map _ = some s
    rw [shScan_qbody_closed]
    rfl
  · have hns : s.data.any isSpecialChar = false := by
      
      rw [List.any_eq_false]
      intro c hc hspec
      rw [isPlain_not_special c (hplain c hc)] at hspec
      exact Bool.false_ne_true hspec
    have hq : quote_for_bash s = s := by
      simp [quote_for_bash, hne, hns]
    rw [hq]
    obtain ⟨c, l, hd⟩ : ∃ c l, s.data = c :: l := by
      rcases he : s.data with _ | ⟨c, l⟩
      · exact absurd (String.ext he) hne
      · exact ⟨c, l, rfl⟩
    have hc := hplain c (by simp [hd])
    have hl : ∀ x ∈ l, isPlain x = true := fun x hx =>
      hplain x (by simp [hd, hx])
    show (shScan s.data .norm false []).map _ = some s
    rw [hd, shScan_norm_plain c hc, shScan_plain_word l hl]
    show some (String.intercalate " " [String.mk ([] ++ [c] ++ l)]) = some s
    simp only [List.nil_append, List.singleton_append]
    rw [← hd]
    rfl

/-- The partial round-trip at a concrete quoted string containing a
single quote, a dollar sign and a backslash. -/
theorem quote_for_bash_roundtrip_witness :
    shellEchoN (quote_for_bash (String.mk
      ['d', 'o', 'n', squote, 't', ' ', '$', 'x', ' ', bslash])) =
    some (String.mk
      ['d', 'o', 'n', squote, 't', ' ', '$', 'x', ' ', bslash]) :=
  quote_for_bash_roundtrip _ (by decide)

theorem run_program_no_redirect_eq (env : Env) (ch : Child) (args : RunArgs)
    (error_ok : Bool) (report_errors : Option Bool) (capture_output : Bool)
    (mls : Int) (cwd : Option String) (shell : Option Bool)
    (hl : ch.launches = true) :
    run_program env ch args error_ok report_errors capture_output mls cwd
        shell none none none =
      (let cmd0 : String := match args with
        | .single s => s
        | .list l => cmd_line_args_to_str (l.map normalize_arg)
       let inv : String := "external program \x7b\x7b " ++ cmd0 ++
        " \x7d\x7d running in \x27" ++
        (match cwd with
         | some c => if c = "" then env.getcwd else c
         | none => env.getcwd) ++ "\x27"
       let r : ProgramResult :=
        { cmd_line := (match args with
            | .single s => [s]
            | .list l => l.map normalize_arg),
          cmd_line_str := cmd0,
          returncode := ch.returncode,
          stdout := if capture_output then some ch.stdout else none,
          stderr := if capture_output then some ch.stderr else none,
          stdout_path := none,
          stderr_path := none,
          program_path := (match args with
            | .single s => [s]
            | .list l => l.map normalize_arg).head?.map env.realpath,
          invocation_details_str := inv,
          max_lines_to_show := mls,
          output_captured := capture_output }
       let logs0 : List LogEvent :=
        if env.verbose then [{ level := .info, msg := "Running " ++ inv }]
        else []
       if ch.returncode ≠ 0 then
         let logs1 : List LogEvent := logs0 ++
           (if (match report_errors with
                | none => !error_ok
                | some b => b) then
             [{ level := .error, msg := (r.error_msg env.readFile).getD "" }]
            else [])
         if error_ok then
           { result := .ok r, logs := logs1, spawned := true }
         else
           { result := .error (.externalProgramError
               (r.error_msg env.readFile) r),
             logs := logs1, spawned := true }
       else { result := .ok r, logs := logs0, spawned := true }) := by
  simp only [run_program, Option.isNone_none, Option.isSome_none,
    Bool.false_and, Bool.and_false, hl, Bool.not_true, Bool.false_eq_true,
    if_false, ne_eq, not_true_eq_false, not_false_eq_true, if_true]
  by_cases hrc : ch.returncode = 0
  · simp [hrc]
  · simp only [hrc, if_false, if_true, not_false_eq_true]
    by_cases heo : error_ok
    · simp [heo, ProgramResult.raise_error_if_failed, ProgramResult.failure,
        hrc]
    · simp [heo, ProgramResult.raise_error_if_failed, ProgramResult.failure,
        hrc]

/-- C1: for every invocation that launches a child process, when the
exit code is non-zero and `error_ok` is false (its default) the call
raises `ExternalProgramError` carrying the composed error message and
the full `ProgramResult`; when `error_ok` is true it returns the
`ProgramResult`, whose error message is attached (non-null exactly on
failure); and on exit code 0 it returns the result without raising. -/
theorem run_program_error_policy (env : Env) (ch : Child) (args : RunArgs)
    (error_ok : Bool) (report_errors : Option Bool) (capture_output : Bool)
    (mls : Int) (cwd : Option String) (shell : Option Bool)
    (sp ep pfx : Option String)
    (hl : ch.launches = true)
    (hsp : (run_program env ch args error_ok report_errors capture_output
        mls cwd shell sp ep pfx).spawned = true) :
    ∃ r : ProgramResult,
      (run_program env ch args error_ok report_errors capture_output
          mls cwd shell sp ep pfx).result =
        (if ch.returncode ≠ 0 ∧ error_ok = false
         then .error (.externalProgramError (r.error_msg env.readFile) r)
         else .ok r) ∧
      r.returncode = ch.returncode ∧
      (r.error_msg env.readFile = none ↔ ch.returncode = 0) := by
  simp only [run_program] at hsp ⊢
  by_cases h1 : sp.isNone ≠ ep.isNone
  · rw [if_pos h1] at hsp
    simp at hsp
  rw [if_neg h1] at hsp ⊢
  by_cases h2 : (pfx.isSome && sp.isSome) = true
  · rw [if_pos h2] at hsp
    simp at hsp
  rw [if_neg h2] at hsp ⊢
  by_cases h3 : ((match pfx with
      | some p => some (p ++ ".out")
      | none => sp).isSome && !shellTruthy (effectiveShell args shell)) = true
  · rw [if_pos h3] at hsp
    simp at hsp
  rw [if_neg h3] at hsp ⊢
  rw [hl] at hsp ⊢
  simp only [Bool.not_true, Bool.false_eq_true, if_false] at hsp ⊢
  clear hsp
  by_cases hrc : ch.returncode = 0
  · simp only [hrc, ne_eq, not_true_eq_false, if_false, false_and]
    exact ⟨_, rfl, rfl, by simp [ProgramResult.error_msg]⟩
  · by_cases heo : error_ok = true
    · simp only [hrc, heo, ne_eq, not_false_eq_true, if_true,
        Bool.not_true, Bool.false_eq_true, if_false, Bool.true_eq_false,
        and_false]
      exact ⟨_, rfl, rfl, by simp [ProgramResult.error_msg, hrc]⟩
    · have heo2 : error_ok = false := by
        cases error_ok
        · rfl
        · exact absurd rfl heo
      simp only [hrc, heo2, ne_eq, not_false_eq_true, if_true,
        Bool.not_false, and_true, and_self,
        ProgramResult.raise_error_if_failed, ProgramResult.failure]
      simp only [decide_True, reduceIte]
      exact ⟨_, rfl, rfl, by simp [ProgramResult.error_msg, hrc]⟩

/-- C1 witness: `run_program_error_policy` at a failing child with the
default error policy. -/
theorem run_program_error_policy_witness :
    ∃ r : ProgramResult,
      (run_program envSample chFailSample (.single "false") false none true
          1000 none none none none none).result =
        (if chFailSample.returncode ≠ 0 ∧ false = false
         then .error (.externalProgramError (r.error_msg envSample.readFile) r)
         else .ok r) ∧
      r.returncode = chFailSample.returncode ∧
      (r.error_msg envSample.readFile = none ↔ chFailSample.returncode = 0) :=
  run_program_error_policy envSample chFailSample (.single "false") false
    none true 1000 none none none none none rfl rfl

/-- C2 counterexample: the claim says an unset `report_errors` resolves
to the negation of error-fatality, i.e. that a failure is not logged
under the default fatal policy and is logged under `error_ok = true`;
the code does the opposite on both counts: with `error_ok = false` and
`report_errors` unset the failing invocation writes an error-severity
log line, and with `error_ok = true` it writes none. -/
theorem report_errors_default_counterexample :
    (∃ e ∈ (run_program envSample chFailSample (.single "false") false none
        true 1000 none none none none none).logs,
      e.level = LogLevel.error) ∧
    ¬(∃ e ∈ (run_program envSample chFailSample (.single "false") true none
        true 1000 none none none none none).logs,
      e.level = LogLevel.error) := by
  constructor
  · rw [run_program_no_redirect_eq envSample chFailSample
      (.single "false") false none true 1000 none none rfl]
    simp [chFailSample, envSample]
  · rw [run_program_no_redirect_eq envSample chFailSample
      (.single "false") true none true 1000 none none rfl]
    simp [chFailSample, envSample]

/-- C2 (amended): when `report_errors` is unset it resolves to the
negation of `error_ok`, i.e. to error-fatality itself: under the
default fatal policy (`error_ok = false`) a failure is written to the
diagnostic log at error severity, and with `error_ok = true` it is
not. -/
theorem report_errors_default (env : Env) (ch : Child) (args : RunArgs)
    (error_ok : Bool) (capture_output : Bool) (mls : Int)
    (cwd : Option String) (shell : Option Bool)
    (hl : ch.launches = true) (hrc : ch.returncode ≠ 0) :
    ((∃ e ∈ (run_program env ch args error_ok none capture_output mls cwd
        shell none none none).logs, e.level = LogLevel.error) ↔
      error_ok = false) := by
  rw [run_program_no_redirect_eq env ch args error_ok none capture_output
    mls cwd shell hl]
  simp only [hrc, ne_eq, not_false_eq_true, if_true]
  cases error_ok with
  | false =>
    cases henv : env.verbose <;> simp [henv]
  | true =>
    cases henv : env.verbose <;> simp [henv]

/-- C2 witness: the amended default at a concrete failing invocation
under the default fatal policy. -/
theorem report_errors_default_witness :
    ((∃ e ∈ (run_program envSample chFailSample (.list [.str "false"]) false
        none true 1000 none none none none none).logs,
      e.level = LogLevel.error) ↔ false = false) :=
  report_errors_default envSample chFailSample (.list [.str "false"]) false
    true 1000 none none rfl (by decide)

/-- C3: for a result whose streams were captured in memory, the error
message is null exactly when the exit code is 0; on a non-zero exit
code it is the header `Non-zero exit code <code> from <descriptor>.`,
followed by a standard-output block delimited by
`Standard output from <descriptor>:` and `(end of standard output)`
only when the captured stdout is non-blank, followed by the analogous
standard-error block only when the captured stderr is non-blank, each
stream right-stripped and trimmed independently by `trim_long_text` at
the configured `max_lines_to_show` (and the whole message
right-stripped). -/
theorem error_msg_spec (r : ProgramResult) (rf : String → String)
    (h1 : r.stdout_path = none) (h2 : r.stderr_path = none) :
    (r.error_msg rf = none ↔ r.returncode = 0) ∧
    (r.returncode ≠ 0 →
      r.error_msg rf = some (pyRstrip (
        "Non-zero exit code " ++ toString r.returncode ++ " from " ++
        r.invocation_details_str ++ "." ++
        (match r.stdout with
         | none => ""
         | some v =>
           if pyStrip v = "" then ""
           else
             "\nStandard " ++ "output" ++ " from " ++
             r.invocation_details_str ++ ":\n" ++
             trim_long_text (pyRstrip v) r.max_lines_to_show ++
             "\n(end of standard " ++ "output" ++ ")\n") ++
        (match r.stderr with
         | none => ""
         | some v =>
           if pyStrip v = "" then ""
           else
             "\nStandard " ++ "error" ++ " from " ++
             r.invocation_details_str ++ ":\n" ++
             trim_long_text (pyRstrip v) r.max_lines_to_show ++
             "\n(end of standard " ++ "error" ++ ")\n")))) := by
  have hso : r.get_user_friendly_stdout_msg rf =
      (match r.stdout with
       | none => ""
       | some v =>
         if pyStrip v = "" then ""
         else
           "\nStandard " ++ "output" ++ " from " ++
           r.invocation_details_str ++ ":\n" ++
           trim_long_text (pyRstrip v) r.max_lines_to_show ++
           "\n(end of standard " ++ "output" ++ ")\n") := by
    unfold ProgramResult.get_user_friendly_stdout_msg
      ProgramResult.wrap_for_error_msg ProgramResult.get_stdout
    rw [if_pos rfl, h1]
    rcases r.stdout with _ | v
    · rfl
    · rfl
  have hse : r.get_user_friendly_stderr_msg rf =
      (match r.stderr with
       | none => ""
       | some v =>
         if pyStrip v = "" then ""
         else
           "\nStandard " ++ "error" ++ " from " ++
           r.invocation_details_str ++ ":\n" ++
           trim_long_text (pyRstrip v) r.max_lines_to_show ++
           "\n(end of standard " ++ "error" ++ ")\n") := by
    unfold ProgramResult.get_user_friendly_stderr_msg
      ProgramResult.wrap_for_error_msg ProgramResult.get_stderr
    rw [if_neg (by decide), h2]
    rcases r.stderr with _ | v
    · rfl
    · rfl
  constructor
  · unfold ProgramResult.error_msg
    by_cases hrc : r.returncode = 0 <;> simp [hrc]
  · intro hrc
    unfold ProgramResult.error_msg
    rw [if_neg hrc, hso, hse]

/-- C3 witness: `error_msg_spec` at a concrete failed result with
captured streams. -/
theorem error_msg_spec_witness :
    let r : ProgramResult :=
      ⟨["x"], "x", 3, some "hello", some "  ", none, none, some "/bin/x",
       "external program x", 1000, true⟩
    (r.error_msg (fun _ => "") = none ↔ r.returncode = 0) ∧
    (r.returncode ≠ 0 →
      r.error_msg (fun _ => "") = some (pyRstrip (
        "Non-zero exit code " ++ toString r.returncode ++ " from " ++
        r.invocation_details_str ++ "." ++
        (match r.stdout with
         | none => ""
         | some v =>
           if pyStrip v = "" then ""
           else
             "\nStandard " ++ "output" ++ " from " ++
             r.invocation_details_str ++ ":\n" ++
             trim_long_text (pyRstrip v) r.max_lines_to_show ++
             "\n(end of standard " ++ "output" ++ ")\n") ++
        (match r.stderr with
         | none => ""
         | some v =>
           if pyStrip v = "" then ""
           else
             "\nStandard " ++ "error" ++ " from " ++
             r.invocation_details_str ++ ":\n" ++
             trim_long_text (pyRstrip v) r.max_lines_to_show ++
             "\n(end of standard " ++ "error" ++ ")\n")))) :=
  error_msg_spec
    ⟨["x"], "x", 3, some "hello", some "  ", none, none, some "/bin/x",
     "external program x", 1000, true⟩
    (fun _ => "") rfl rfl

/-- C5: `run_program` raises `ValueError` without spawning a child —
its output is independent of the child behavior and its `spawned` flag
is false — whenever exactly one of `stdout_path` and `stderr_path` is
supplied, and whenever file redirection is requested (both paths, or a
`stdout_stderr` prefix, given) while shell execution is not in
effect. -/
theorem run_program_config_error (env : Env) (ch : Child) (args : RunArgs)
    (error_ok : Bool) (report_errors : Option Bool) (capture_output : Bool)
    (mls : Int) (cwd : Option String) (shell : Option Bool)
    (sp ep pfx : Option String)
    (h : sp.isSome ≠ ep.isSome ∨
         (((sp.isSome = true ∧ ep.isSome = true) ∨ pfx.isSome = true) ∧
          shellTruthy (effectiveShell args shell) = false)) :
    (∃ m, (run_program env ch args error_ok report_errors capture_output
        mls cwd shell sp ep pfx).result = .error (.valueError m)) ∧
    (run_program env ch args error_ok report_errors capture_output
        mls cwd shell sp ep pfx).spawned = false := by
  rcases sp with _ | p <;> rcases ep with _ | q <;> rcases pfx with _ | x
  · simp [shellTruthy] at h
  · have hsh : shellTruthy (effectiveShell args shell) = false := by
      simpa using h
    simp only [run_program]
    rw [if_neg (by simp), if_neg (by simp), if_pos (by simp [hsh])]
    exact ⟨⟨_, rfl⟩, rfl⟩
  · simp only [run_program]
    rw [if_pos (by simp)]
    exact ⟨⟨_, rfl⟩, rfl⟩
  · simp only [run_program]
    rw [if_pos (by simp)]
    exact ⟨⟨_, rfl⟩, rfl⟩
  · simp only [run_program]
    rw [if_pos (by simp)]
    exact ⟨⟨_, rfl⟩, rfl⟩
  · simp only [run_program]
    rw [if_pos (by simp)]
    exact ⟨⟨_, rfl⟩, rfl⟩
  · have hsh : shellTruthy (effectiveShell args shell) = false := by
      simpa using h
    simp only [run_program]
    rw [if_neg (by simp), if_neg (by simp), if_pos (by simp [hsh])]
    exact ⟨⟨_, rfl⟩, rfl⟩
  · simp only [run_program]
    rw [if_neg (by simp), if_pos (by simp)]
    exact ⟨⟨_, rfl⟩, rfl⟩

/-- C5 witness: a concrete invocation with only `stdout_path` supplied,
and one requesting redirection without a shell. -/
theorem run_program_config_error_witness :
    ((∃ m, (run_program envSample chOkSample (.list [.str "x"]) false none
        true 1000 none none (some "o") none none).result =
          .error (.valueError m)) ∧
     (run_program envSample chOkSample (.list [.str "x"]) false none
        true 1000 none none (some "o") none none).spawned = false) ∧
    ((∃ m, (run_program envSample chOkSample (.list [.str "x"]) false none
        true 1000 none none (some "o") (some "e") none).result =
          .error (.valueError m)) ∧
     (run_program envSample chOkSample (.list [.str "x"]) false none
        true 1000 none none (some "o") (some "e") none).spawned = false) :=
  ⟨run_program_config_error envSample chOkSample (.list [.str "x"]) false
      none true 1000 none none (some "o") none none (by decide),
   run_program_config_error envSample chOkSample (.list [.str "x"]) false
      none true 1000 none none (some "o") (some "e") none (by decide)⟩

/-- C6: `program_succeeds_empty_output` (with output captured and no
redirection) returns false when the command exits non-zero; returns
true when it exits zero with blank captured stdout; and raises
`ExternalProgramError` — after logging the diagnostic at error
severity — when it exits zero with non-blank captured stdout. -/
theorem program_succeeds_empty_output_spec (env : Env) (ch : Child)
    (args : RunArgs) (mls : Int) (cwd : Option String)
    (shell : Option Bool) (hl : ch.launches = true) :
    (ch.returncode ≠ 0 →
      (program_succeeds_empty_output env ch args true mls cwd shell
        none none none).1 = .ok false) ∧
    (ch.returncode = 0 → pyStrip ch.stdout = "" →
      (program_succeeds_empty_output env ch args true mls cwd shell
        none none none).1 = .ok true) ∧
    (ch.returncode = 0 → pyStrip ch.stdout ≠ "" →
      ∃ em r, (program_succeeds_empty_output env ch args true mls cwd shell
          none none none).1 = .error (.externalProgramError (some em) r) ∧
        em = "Unexpected output in case of success. " ++
          r.get_user_friendly_stdout_msg env.readFile ∧
        ({ level := LogLevel.error, msg := em } : LogEvent) ∈
          (program_succeeds_empty_output env ch args true mls cwd shell
            none none none).2.1) := by
  refine ⟨?_, ?_, ?_⟩
  · intro hrc
    simp only [program_succeeds_empty_output]
    rw [run_program_no_redirect_eq env ch args true (some false) true mls
      cwd shell hl]
    simp [hrc, ProgramResult.failure]
  · intro hrc hblank
    simp only [program_succeeds_empty_output]
    rw [run_program_no_redirect_eq env ch args true (some false) true mls
      cwd shell hl]
    simp [hrc, ProgramResult.failure, hblank]
  · intro hrc hnb
    simp only [program_succeeds_empty_output]
    rw [run_program_no_redirect_eq env ch args true (some false) true mls
      cwd shell hl]
    simp only [hrc, ne_eq, not_true_eq_false, if_false, reduceIte,
      ProgramResult.failure]
    simp only [decide_False, Bool.false_eq_true, if_false]
    rw [if_pos hnb]
    exact ⟨_, _, rfl, rfl, by simp⟩

/-- C6 witness: the three outcomes at concrete children: a failing
command, a silent success, and a success printing `foo`. -/
theorem program_succeeds_empty_output_spec_witness :
    (program_succeeds_empty_output envSample chFailSample (.single "false")
      true 1000 none none none none none).1 = .ok false ∧
    (program_succeeds_empty_output envSample chOkSample (.single "true")
      true 1000 none none none none none).1 = .ok true ∧
    (∃ em r, (program_succeeds_empty_output envSample chNoisySample
        (.single "echo foo") true 1000 none none none none none).1 =
          .error (.externalProgramError (some em) r) ∧
      em = "Unexpected output in case of success. " ++
        r.get_user_friendly_stdout_msg envSample.readFile ∧
      ({ level := LogLevel.error, msg := em } : LogEvent) ∈
        (program_succeeds_empty_output envSample chNoisySample
          (.single "echo foo") true 1000 none none none none none).2.1) :=
  ⟨(program_succeeds_empty_output_spec envSample chFailSample
      (.single "false") 1000 none none rfl).1 (by decide),
   (program_succeeds_empty_output_spec envSample chOkSample
      (.single "true") 1000 none none rfl).2.1 rfl (by decide),
   (program_succeeds_empty_output_spec envSample chNoisySample
      (.single "echo foo") 1000 none none rfl).2.2 rfl (by decide)⟩

/-- C10: on success, `program_succeeds_empty_output` dereferences a
stdout that was never captured: when the command exits zero but
`capture_output` is false, or stdout was redirected to a file (which
requires shell execution), the stored `stdout` is null and the call
fails with an `AttributeError` instead of returning a boolean. -/
theorem program_succeeds_empty_output_uncaptured (env : Env) (ch : Child)
    (args : RunArgs) (mls : Int) (cwd : Option String)
    (hl : ch.launches = true) (hrc : ch.returncode = 0) :
    (∀ shell : Option Bool,
      (program_succeeds_empty_output env ch args false mls cwd shell
        none none none).1 = .error .attributeError) ∧
    (∀ p q : String,
      (program_succeeds_empty_output env ch args true mls cwd (some true)
        (some p) (some q) none).1 = .error .attributeError) := by
  constructor
  · intro shell
    simp only [program_succeeds_empty_output]
    rw [run_program_no_redirect_eq env ch args true (some false) false mls
      cwd shell hl]
    simp [hrc, ProgramResult.failure]
  · intro p q
    simp only [program_succeeds_empty_output, run_program]
    rcases args with s | l <;>
      simp [hl, hrc, ProgramResult.failure, shellTruthy, effectiveShell]

/-- C10 witness: a successful child with `capture_output := false`, and
one with both streams redirected to files under a shell. -/
theorem program_succeeds_empty_output_uncaptured_witness :
    (program_succeeds_empty_output envSample chOkSample (.single "true")
      false 1000 none none none none none).1 = .error .attributeError ∧
    (program_succeeds_empty_output envSample chOkSample (.single "x")
      true 1000 none (some true) (some "o") (some "e") none).1 =
        .error .attributeError :=
  ⟨(program_succeeds_empty_output_uncaptured envSample chOkSample
      (.single "true") 1000 none rfl rfl).1 none,
   (program_succeeds_empty_output_uncaptured envSample chOkSample
      (.single "x") 1000 none rfl rfl).2 "o" "e"⟩

end YbPyCommon
